import Mathlib

/-!
Shallow embedding of the market-cap ingestion and reconciliation pipeline of
the blazr backend, together with theorems settling the specified properties.

Numbers (JavaScript doubles) are modelled as rationals; timestamps are
rationals denoting milliseconds since the epoch.  Network calls are modelled
by an explicit oracle argument: `some v` means the call succeeded with payload
`v`, `none` means it failed (timeout / error / malformed response).  Absent
object fields (JavaScript `undefined`) are modelled with `Option`.
-/

namespace Blazr

/- ===================== TokenPriceService ======================
   Embedding of src/services/marketCap/tokenPriceService.js. -/

/-- The value cached by `fetchTokenPrice`: a unit price in USD and the
timestamp at which it was obtained. -/
structure PriceData where
  price : ℚ
  timestamp : ℚ
  deriving DecidableEq, Repr

/-- The per-mint slice of the service state: `priceCache.get(mint)` and
`lastUpdate.get(mint)` (milliseconds since epoch, `none` when absent). -/
structure PriceCell where
  cached : Option PriceData
  lastUpdate : Option ℚ
  deriving DecidableEq, Repr

/-- `this.cacheTimeout = 5 * 60 * 1000` (five minutes, in milliseconds). -/
def cacheTimeout : ℚ := 5 * 60 * 1000

/-- `fetchTokenPrice`: on success the quote API returns `outAmount` (USDC
smallest units for the fixed notional) and the price is
`parseFloat(outAmount) / 1000000`; every failure is caught and `null` is
returned.  `net` is the network oracle. -/
def fetchTokenPrice (net : Option ℚ) (now : ℚ) : Option PriceData :=
  match net with
  | some outAmount => some ⟨outAmount / 1000000, now⟩
  | none => none

/-- Result of one `getTokenPrice` call: the returned value, the new per-mint
cache state, and the number of network quote requests issued (0 or 1). -/
structure FetchOutcome where
  result : Option PriceData
  cell : PriceCell
  requests : ℕ
  deriving DecidableEq, Repr

/-- `getTokenPrice(tokenMint, forceRefresh)`: returns the cached entry when
`forceRefresh` is false, the cache holds the mint, `lastUpdate` is truthy and
the age is below `cacheTimeout`; otherwise fetches, caching the result only on
success.  A JavaScript number is truthy iff it is nonzero. -/
def getTokenPrice (cell : PriceCell) (forceRefresh : Bool) (now : ℚ) (net : Option ℚ) :
    FetchOutcome :=
  let hit : Option PriceData :=
    if forceRefresh then none
    else match cell.cached, cell.lastUpdate with
      | some c, some t => if t ≠ 0 ∧ now - t < cacheTimeout then some c else none
      | _, _ => none
  match hit with
  | some c => ⟨some c, cell, 0⟩
  | none =>
    match fetchTokenPrice net now with
    | some pd => ⟨some pd, ⟨some pd, some now⟩, 1⟩
    | none => ⟨none, cell, 1⟩

/-- `calculateMarketCap`'s successful return value.  The source constructs
`{ marketCapUsd, solPrice, marketCapSol, timestamp }`; it has NO `tokenPrice`
field. -/
structure MarketCapResult where
  marketCapUsd : ℚ
  solPrice : ℚ
  marketCapSol : ℚ
  timestamp : ℚ
  deriving DecidableEq, Repr

/-- JavaScript member access `marketCapResult.tokenPrice`: the field is absent
from the object built by `calculateMarketCap`, so the access yields
`undefined`, modelled as `none`. -/
def marketCapResultTokenPrice (_ : MarketCapResult) : Option ℚ := none

/-- Calling `.toFixed(d)` on a possibly-undefined JavaScript number: on
`undefined` a TypeError is thrown. -/
def jsToFixed (x : Option ℚ) (_digits : ℕ) : Except String ℚ :=
  match x with
  | some q => .ok q
  | none => .error "Cannot read properties of undefined (reading toFixed)"

/-- Result of one `calculateMarketCap` call. -/
structure CalcOutcome where
  result : Option MarketCapResult
  cell : PriceCell
  requests : ℕ
  deriving DecidableEq, Repr

/-- `calculateMarketCap(tokenMint, marketCapInSol)`: a zero SOL valuation is
returned as zero USD without consulting the oracle; otherwise the SOL unit
price is obtained through `getSolPrice` (= `getTokenPrice` on the SOL mint's
cache cell) and the USD value is `marketCapInSol * solPrice`; a missing price
yields `null`. -/
def calculateMarketCap (cell : PriceCell) (now : ℚ) (net : Option ℚ)
    (marketCapInSol : ℚ) : CalcOutcome :=
  if marketCapInSol = 0 then ⟨some ⟨0, 0, 0, now⟩, cell, 0⟩
  else
    let f := getTokenPrice cell false now net
    match f.result with
    | none => ⟨none, f.cell, f.requests⟩
    | some pd =>
      ⟨some ⟨marketCapInSol * pd.price, pd.price, marketCapInSol, pd.timestamp⟩,
        f.cell, f.requests⟩

/- ===================== SolPriceService ======================
   Embedding of the standalone SOL price service (src/unnamed/part_004):
   `fetchSolPrice` falls back to the cached price (`this.solPrice`) when the
   network call fails, and rethrows when no truthy cached price exists. -/

/-- `SolPriceService.fetchSolPrice`: `solPrice` is the service's cached price
(`none` when never fetched), `net` the network oracle.  On network failure the
cached price is returned when truthy (nonzero), otherwise the error
propagates. -/
def fetchSolPrice (solPrice : Option ℚ) (net : Option ℚ) : Except String ℚ :=
  match net with
  | some outAmount => .ok (outAmount / 1000000)
  | none =>
    match solPrice with
    | some p => if p ≠ 0 then .ok p else .error "Network error fetching SOL price"
    | none => .error "Network error fetching SOL price"

/- ===================== updater.js: valuation cache ====================== -/

/-- A `tokenPriceCache` entry, written by `handleWebSocketMessage`.  The
writer guarantees `marketCapSol` is present; the remaining trade fields are
copied from the message and may be absent. -/
structure CacheEntry where
  marketCapSol : ℚ
  lastTradeType : Option String
  lastSolAmount : Option ℚ
  lastTokenAmount : Option ℚ
  lastUpdated : ℚ
  deriving DecidableEq, Repr

/-- The in-memory `tokenPriceCache` map, keyed by mint address. -/
abbrev TokenCache := List (String × CacheEntry)

/-- `Map.prototype.set`: overwrite the binding for `k`, keep all others. -/
def cacheSet (cache : TokenCache) (k : String) (v : CacheEntry) : TokenCache :=
  (k, v) :: List.filter (fun p => p.1 ≠ k) cache

/-- `getCachedTokenPrice(tokenAddress)`: `tokenPriceCache.get(addr) || null`. -/
def getCachedTokenPrice (cache : TokenCache) (tokenAddress : String) : Option CacheEntry :=
  Option.map Prod.snd (List.find? (fun p => p.1 = tokenAddress) cache)

/-- An inbound WebSocket message after `JSON.parse`; every field may be
absent. -/
structure WsMessage where
  mint : Option String
  marketCapSol : Option ℚ
  txType : Option String
  solAmount : Option ℚ
  tokenAmount : Option ℚ
  message : Option String
  deriving DecidableEq, Repr

/-- `handleWebSocketMessage`: when `message.mint` is truthy (a nonempty
string) and `message.marketCapSol !== undefined`, upsert a cache entry for
that mint; every other message is informational and ignored. -/
def handleWebSocketMessage (cache : TokenCache) (now : ℚ) (msg : WsMessage) : TokenCache :=
  match msg.mint, msg.marketCapSol with
  | some mint, some mc =>
    if mint ≠ "" then
      cacheSet cache mint ⟨mc, msg.txType, msg.solAmount, msg.tokenAmount, now⟩
    else cache
  | _, _ => cache

/- ===================== updater.js: mock data ====================== -/

/-- JavaScript `ToInt32`: wrap an integer into `[-2^31, 2^31)`. -/
def toInt32 (n : ℤ) : ℤ :=
  let m := n % 4294967296
  if m < 2147483648 then m else m - 4294967296

/-- One step of the string hash in `generateMockMarketCapData`:
`a = ((a << 5) - a) + charCode; a = a & a`.  `a << 5` coerces to int32 before
shifting (wrapping), the subtraction and addition are exact, and `a & a`
coerces the result back to int32. -/
def hashStep (a : ℤ) (c : ℕ) : ℤ := toInt32 (toInt32 (a * 32) - a + (c : ℤ))

/-- The hash of the whole token address (`split('').reduce(..., 0)`). -/
def jsStringHash (s : String) : ℤ :=
  List.foldl (fun a ch => hashStep a ch.toNat) 0 s.toList

/-- Return value of `generateMockMarketCapData`. -/
structure MockData where
  marketCapSol : ℚ
  lastTradeType : String
  lastSolAmount : ℚ
  lastTokenAmount : ℚ
  lastUpdated : ℚ
  isMock : Bool
  deriving DecidableEq, Repr

/-- `generateMockMarketCapData(tokenAddress)`: deterministic mock valuation
derived from the address hash; `baseMarketCapSol ∈ [1,100]`,
`multiplier ∈ clos [1, 1.4]`. -/
def generateMockMarketCapData (tokenAddress : String) (now : ℚ) : MockData :=
  let hash := jsStringHash tokenAddress
  let baseMarketCapSol : ℚ := ((hash.natAbs % 100 + 1 : ℕ) : ℚ)
  let multiplier : ℚ := 1 + ((hash.natAbs % 5 : ℕ) : ℚ) / 10
  { marketCapSol := baseMarketCapSol * multiplier
    lastTradeType := "mock"
    lastSolAmount := baseMarketCapSol * (1 / 100)
    lastTokenAmount := baseMarketCapSol * 1000
    lastUpdated := now
    isMock := true }

/- ===================== persisted store ====================== -/

/-- The columns of `created_tokens` touched by the pipeline. -/
structure DbRow where
  mint_address : String
  market_cap : Option ℚ
  last_market_cap_update : Option ℚ
  deriving DecidableEq, Repr

/-- The persisted store, keyed by the token's `id` column. -/
abbrev DbState := List (ℕ × DbRow)

/-- The `update({market_cap, last_market_cap_update}).eq('id', tokenId)`
write: set both columns on every row whose id matches. -/
def dbUpdateMarketCap (db : DbState) (tokenId : ℕ) (usd : ℚ) (now : ℚ) : DbState :=
  List.map (fun p =>
    if p.1 = tokenId then
      (p.1, { p.2 with market_cap := some usd, last_market_cap_update := some now })
    else p) db

/- ===================== updater.js: updateTokenMarketCap ================ -/

/-- The SOL valuation chosen by `updateTokenMarketCap` (lines 236-253): the
cached PumpPortal value when an entry exists, else the mock value. -/
def selectedMarketCapSol (cache : TokenCache) (tokenAddress : String) (now : ℚ) : ℚ :=
  match getCachedTokenPrice cache tokenAddress with
  | some e => e.marketCapSol
  | none => (generateMockMarketCapData tokenAddress now).marketCapSol

/-- The `dataSource` tag chosen alongside `selectedMarketCapSol`. -/
def selectedDataSource (cache : TokenCache) (tokenAddress : String) : String :=
  match getCachedTokenPrice cache tokenAddress with
  | some _ => "real-time"
  | none => "mock"

/-- The record returned by `updateTokenMarketCap`. -/
structure UpdateOutcome where
  updated : Bool
  marketCapUsd : Option ℚ
  marketCapSol : Option ℚ
  tokenPrice : Option ℚ
  dataSource : Option String
  error : Option String
  deriving DecidableEq, Repr

/-- Result of one `updateTokenMarketCap` call: the returned record, the store
after the call, the SOL-mint price cell after the call, and the number of
quote requests issued. -/
structure UpdateResultState where
  outcome : UpdateOutcome
  db : DbState
  cell : PriceCell
  requests : ℕ
  deriving DecidableEq, Repr

/-- `updateTokenMarketCap(tokenId, tokenAddress)`: choose the SOL valuation
(cached or mock), compute the USD market cap, and on success write
`market_cap` and `last_market_cap_update` to the store.  After the write, the
success log dereferences `marketCapResult.tokenPrice` — a field
`calculateMarketCap` does not return — so `toFixed` throws, the `catch`
returns `{ updated: false, error }`, and the `updated: true` return is never
reached on this path. -/
def updateTokenMarketCap (cache : TokenCache) (cell : PriceCell) (net : Option ℚ)
    (now : ℚ) (db : DbState) (tokenId : ℕ) (tokenAddress : String) : UpdateResultState :=
  let marketCapSol := selectedMarketCapSol cache tokenAddress now
  let calcRes := calculateMarketCap cell now net marketCapSol
  match calcRes.result with
  | none =>
    ⟨⟨false, none, none, none, none, some "Could not calculate market cap"⟩,
      db, calcRes.cell, calcRes.requests⟩
  | some r =>
    let db1 := dbUpdateMarketCap db tokenId r.marketCapUsd now
    match jsToFixed (marketCapResultTokenPrice r) 6 with
    | .error msg => ⟨⟨false, none, none, none, none, some msg⟩, db1, calcRes.cell, calcRes.requests⟩
    | .ok _ =>
      ⟨⟨true, some r.marketCapUsd, some r.marketCapSol, marketCapResultTokenPrice r,
        some (selectedDataSource cache tokenAddress), none⟩, db1, calcRes.cell, calcRes.requests⟩

/- ===================== updater.js: WebSocket lifecycle ================== -/

/-- The module-level connection state of updater.js: `conn` is
`wsConnection !== null`, `alive` records that the current socket has not yet
closed (so it may still fire `open`/`close`), `connected` is `isConnected`,
`reconnectAttempts` the counter, `pendingReconnect` the delay of a scheduled
reconnect timer (ms), `lastSubscribedTokens` the remembered subscription
set. -/
structure StreamState where
  conn : Bool
  alive : Bool
  connected : Bool
  reconnectAttempts : ℕ
  pendingReconnect : Option ℕ
  lastSubscribedTokens : List String
  deriving DecidableEq, Repr

/-- `const maxReconnectAttempts = 20`. -/
def maxReconnectAttempts : ℕ := 20

/-- `initializeWebSocket()`: a no-op returning the existing handle when
`wsConnection` is non-null; otherwise creates a fresh (not yet open)
socket. -/
def initializeWebSocket (s : StreamState) : StreamState :=
  if s.conn then s else { s with conn := true, alive := true }

/-- `subscribeToTokenTrades(tokenAddresses)`: remember the set, and either
send exactly one `subscribeTokenTrade` payload (when connected) or call
`initializeWebSocket` and return without sending.  The second component lists
the `keys` arrays of the payloads sent. -/
def subscribeToTokenTrades (s : StreamState) (tokenAddresses : List String) :
    StreamState × List (List String) :=
  let s1 := { s with lastSubscribedTokens := tokenAddresses }
  if ¬ s1.connected ∨ ¬ s1.conn then (initializeWebSocket s1, [])
  else (s1, [tokenAddresses])

/-- The socket's `open` handler: mark connected, reset the attempt counter,
and re-subscribe to the remembered set when it is nonempty. -/
def wsOpenHandler (s : StreamState) : StreamState × List (List String) :=
  let s1 := { s with connected := true, reconnectAttempts := 0 }
  if s1.lastSubscribedTokens ≠ [] then subscribeToTokenTrades s1 s1.lastSubscribedTokens
  else (s1, [])

/-- The socket's `close` handler (the `error` handler only clears
`isConnected` and closes the socket, funnelling into this path): below the
ceiling, schedule a reconnect after `min(30000, 5000 * 2^attempts)` ms;
at the ceiling, give up. -/
def wsCloseHandler (s : StreamState) : StreamState :=
  let s1 := { s with connected := false, alive := false }
  if s1.reconnectAttempts < maxReconnectAttempts then
    { s1 with pendingReconnect := some (min 30000 (5000 * 2 ^ s1.reconnectAttempts)) }
  else s1

/-- The scheduled reconnect timer body: `wsConnection = null;
reconnectAttempts++; initializeWebSocket()`. -/
def reconnectTimerFire (s : StreamState) : StreamState :=
  match s.pendingReconnect with
  | none => s
  | some _ =>
    initializeWebSocket
      { s with conn := false, reconnectAttempts := s.reconnectAttempts + 1,
               pendingReconnect := none }

/-- Environment events driving the connection state: the socket opening, the
socket closing (or erroring), a scheduled reconnect timer firing, and an
external `initializeWebSocket()` call. -/
inductive WsEvent where
  | openEv
  | closeEv
  | timerEv
  | initEv
  deriving DecidableEq, Repr

/-- One event step.  `open`/`close` can only fire on a live socket, `open`
only while not yet connected, and the timer only when armed; otherwise the
event is a no-op. -/
def wsStep (s : StreamState) : WsEvent → StreamState
  | .openEv => if s.alive = true ∧ s.connected = false then (wsOpenHandler s).1 else s
  | .closeEv => if s.alive = true then wsCloseHandler s else s
  | .timerEv => reconnectTimerFire s
  | .initEv => initializeWebSocket s

/-- Run a sequence of events. -/
def wsRun (s : StreamState) (evts : List WsEvent) : StreamState :=
  List.foldl wsStep s evts

/-- The stream has permanently given up: the attempt counter reached the
ceiling, no reconnect timer is armed, the last socket is closed, and
`wsConnection` still holds the dead handle (it is nulled only inside the
reconnect timer). -/
def wsGaveUp (s : StreamState) : Prop :=
  maxReconnectAttempts ≤ s.reconnectAttempts ∧ s.pendingReconnect = none ∧
    s.alive = false ∧ s.conn = true

/- ===================== scheduler.js ====================== -/

/-- The result object of a successful `updateMarketCaps()` run. -/
structure UpdateRunResult where
  tokensUpdated : ℕ
  tokensProcessed : ℕ
  errors : List (String × String)
  deriving DecidableEq, Repr

/-- The scheduler's `lastJobStatus` record. -/
structure JobStatus where
  status : String
  tokensUpdated : ℕ
  tokensProcessed : Option ℕ
  errors : Option (List (String × String))
  error : Option String
  deriving DecidableEq, Repr

/-- `MarketCapScheduler.performUpdate()`: the body of one cycle, as a function
of the outcome of `await updateMarketCaps()` (`.error e` when the cycle threw
with message `e`).  Returns the `lastJobStatus` it stores and the exception it
lets escape — the `catch` block records the failure and swallows it, so the
second component is always `none`. -/
def performUpdate (cycle : Except String UpdateRunResult) : JobStatus × Option String :=
  match cycle with
  | .ok r => (⟨"completed", r.tokensUpdated, some r.tokensProcessed, some r.errors, none⟩, none)
  | .error e => (⟨"failed", 0, none, none, some e⟩, none)

/-- `MarketCapScheduler.triggerUpdate()`: awaits `performUpdate` and returns
`lastJobStatus`; any exception escaping `performUpdate` would escape here. -/
def triggerUpdate (cycle : Except String UpdateRunResult) : JobStatus × Option String :=
  ((performUpdate cycle).1, (performUpdate cycle).2)

/-- One recurring-timer tick: `setInterval(async () => { await
this.performUpdate(); }, ...)`; any exception escaping `performUpdate` would
become an unhandled rejection of the tick. -/
def timerTick (cycle : Except String UpdateRunResult) : JobStatus × Option String :=
  ((performUpdate cycle).1, (performUpdate cycle).2)

/- ===================== helper lemmas ====================== -/

/-- The mock valuation lies in `[1, 140]`: the base is in `[1, 100]` and the
multiplier in `[1, 7/5]`. -/
theorem generateMock_marketCapSol_bounds (addr : String) (now : ℚ) :
    1 ≤ (generateMockMarketCapData addr now).marketCapSol ∧
      (generateMockMarketCapData addr now).marketCapSol ≤ 140 := by
  unfold generateMockMarketCapData
  simp only
  have hb : ((jsStringHash addr).natAbs % 100 + 1 : ℕ) ≤ 100 :=
    Nat.succ_le_of_lt (Nat.mod_lt _ (by norm_num))
  have hm : ((jsStringHash addr).natAbs % 5 : ℕ) ≤ 4 :=
    Nat.lt_succ_iff.mp (Nat.mod_lt _ (by norm_num))
  have hb1 : (1 : ℚ) ≤ (((jsStringHash addr).natAbs % 100 + 1 : ℕ) : ℚ) := by
    exact_mod_cast Nat.succ_le_succ (Nat.zero_le _)
  have hb2 : (((jsStringHash addr).natAbs % 100 + 1 : ℕ) : ℚ) ≤ 100 := by exact_mod_cast hb
  have hm0 : (0 : ℚ) ≤ (((jsStringHash addr).natAbs % 5 : ℕ) : ℚ) := Nat.cast_nonneg _
  have hm4 : (((jsStringHash addr).natAbs % 5 : ℕ) : ℚ) ≤ 4 := by exact_mod_cast hm
  constructor
  · nlinarith
  · nlinarith

/-- The mock valuation is strictly positive. -/
theorem generateMock_marketCapSol_pos (addr : String) (now : ℚ) :
    0 < (generateMockMarketCapData addr now).marketCapSol :=
  lt_of_lt_of_le one_pos (generateMock_marketCapSol_bounds addr now).1

/-- A gave-up stream state absorbs every event. -/
theorem wsStep_gaveUp_fixed (s : StreamState) (h : wsGaveUp s) (e : WsEvent) :
    wsStep s e = s := by
  obtain ⟨_, hpend, halive, hconn⟩ := h
  cases e with
  | openEv => simp [wsStep, halive]
  | closeEv => simp [wsStep, halive]
  | timerEv => simp [wsStep, reconnectTimerFire, hpend]
  | initEv => simp [wsStep, initializeWebSocket, hconn]

/-- A gave-up stream state is unchanged by any event sequence. -/
theorem wsRun_gaveUp_fixed (s : StreamState) (h : wsGaveUp s) (evts : List WsEvent) :
    wsRun s evts = s := by
  induction evts with
  | nil => rfl
  | cons e evts ih =>
    show List.foldl wsStep (wsStep s e) evts = s
    rw [wsStep_gaveUp_fixed s h e]
    exact ih

/- ===================== claim theorems ====================== -/

/-- Claim C9: if the base-asset valuation passed to `calculateMarketCap` is
exactly 0, the returned USD valuation is 0 and no oracle price fetch is
performed — the price cell is unchanged and zero quote requests are issued, so
the conversion cannot fail for lack of a price in the zero case. -/
theorem calculateMarketCap_zero_skips_oracle (cell : PriceCell) (now : ℚ) (net : Option ℚ) :
    calculateMarketCap cell now net 0 = ⟨some ⟨0, 0, 0, now⟩, cell, 0⟩ := by
  simp [calculateMarketCap]

/-- Claim C8: `getTokenPrice` returns the cached price with no network
request whenever the cached value is younger than the 5-minute TTL and
`forceRefresh` is false; consequently two calls within one TTL window
(starting from an empty cache, with the first fetch succeeding) issue exactly
one network quote request in total, the second call being served from the
cache. -/
theorem getTokenPrice_ttl_single_request
    (cell : PriceCell) (now : ℚ) (net : Option ℚ) (c : PriceData) (t : ℚ)
    (hc : cell.cached = some c) (ht : cell.lastUpdate = some t)
    (ht0 : t ≠ 0) (hfresh : now - t < cacheTimeout)
    (now1 now2 : ℚ) (net2 : Option ℚ) (q : ℚ)
    (h1 : now1 ≠ 0) (hwin : now2 - now1 < cacheTimeout) :
    getTokenPrice cell false now net = ⟨some c, cell, 0⟩ ∧
    (getTokenPrice (PriceCell.mk none none) false now1 (some q)).requests +
        (getTokenPrice (getTokenPrice (PriceCell.mk none none) false now1 (some q)).cell
          false now2 net2).requests = 1 ∧
    (getTokenPrice (getTokenPrice (PriceCell.mk none none) false now1 (some q)).cell
        false now2 net2).result = some ⟨q / 1000000, now1⟩ := by
  refine ⟨?_, ?_, ?_⟩
  · simp [getTokenPrice, hc, ht, ht0, hfresh]
  · simp [getTokenPrice, fetchTokenPrice, h1, hwin]
  · simp [getTokenPrice, fetchTokenPrice, h1, hwin]

/-- Witness for C8 at concrete inputs: a fresh cached price at age 1 ms is
served from the cache, and two calls 1 ms apart from a cold cache make one
request. -/
theorem getTokenPrice_ttl_single_request_witness :
    getTokenPrice ⟨some ⟨2, 5⟩, some 5⟩ false 6 none =
        ⟨some ⟨2, 5⟩, ⟨some ⟨2, 5⟩, some 5⟩, 0⟩ ∧
    (getTokenPrice (PriceCell.mk none none) false 7 (some 3)).requests +
        (getTokenPrice (getTokenPrice (PriceCell.mk none none) false 7 (some 3)).cell
          false 8 none).requests = 1 ∧
    (getTokenPrice (getTokenPrice (PriceCell.mk none none) false 7 (some 3)).cell
        false 8 none).result = some ⟨3 / 1000000, 7⟩ :=
  getTokenPrice_ttl_single_request ⟨some ⟨2, 5⟩, some 5⟩ 6 none ⟨2, 5⟩ 5 rfl rfl
    (by norm_num) (by norm_num [cacheTimeout]) 7 8 none 3
    (by norm_num) (by norm_num [cacheTimeout])

/-- Counterexample to claim C5 as stated: in `TokenPriceService.getTokenPrice`
— the price getter the reconciliation pipeline actually uses — a failed
network call with a stale cached price present returns `null`, not the stale
cached value. -/
theorem getTokenPrice_stale_fetch_failure :
    (getTokenPrice ⟨some ⟨2, 0⟩, some 1⟩ false 400000 none).result = none ∧
    (getTokenPrice ⟨some ⟨2, 0⟩, some 1⟩ false 400000 none).result ≠ some ⟨2, 0⟩ := by
  refine ⟨?_, ?_⟩
  · norm_num [getTokenPrice, fetchTokenPrice, cacheTimeout]
  · norm_num [getTokenPrice, fetchTokenPrice, cacheTimeout]
    exact fun h => Option.noConfusion h

/-- Claim C5 amended: the stale-cache fallback holds of
`SolPriceService.fetchSolPrice` (the standalone SOL price service): on network
failure with a truthy cached price it returns the stale cached value, and with
no cached price the failure propagates as an error.
`TokenPriceService.getTokenPrice`, by contrast, returns `null` on fetch
failure even when a stale cached price exists. -/
theorem fetchSolPrice_stale_fallback (p : ℚ) (hp : p ≠ 0)
    (c : PriceData) (t now : ℚ) (hstale : ¬ (t ≠ 0 ∧ now - t < cacheTimeout)) :
    fetchSolPrice (some p) none = .ok p ∧
    fetchSolPrice none none = .error "Network error fetching SOL price" ∧
    (getTokenPrice ⟨some c, some t⟩ false now none).result = none := by
  refine ⟨by simp [fetchSolPrice, hp], rfl, ?_⟩
  simp [getTokenPrice, fetchTokenPrice, hstale]

/-- Witness for the amended C5 at concrete inputs. -/
theorem fetchSolPrice_stale_fallback_witness :
    fetchSolPrice (some 3) none = .ok 3 ∧
    fetchSolPrice none none = .error "Network error fetching SOL price" ∧
    (getTokenPrice ⟨some ⟨2, 0⟩, some 1⟩ false 400000 none).result = none :=
  fetchSolPrice_stale_fallback 3 (by norm_num) ⟨2, 0⟩ 1 400000
    (by norm_num [cacheTimeout])

/-- Counterexample to claim C4 as stated: a failing cycle does NOT propagate
out of a manual `triggerUpdate()` call — the exception component is `none` and
the failed status record is returned instead. -/
theorem triggerUpdate_swallows_exception :
    triggerUpdate (.error "update failed") =
      (⟨"failed", 0, none, none, some "update failed"⟩, none) := rfl

/-- Claim C4 amended: any unexpected exception inside an update cycle is
captured into the `lastJobStatus` record with status `failed` and the
exception message; it propagates neither out of the recurring timer (which
keeps ticking) nor out of a manual `triggerUpdate()` call, which returns the
failed record instead of rethrowing. -/
theorem performUpdate_captures_failure (e : String) (r : UpdateRunResult) :
    performUpdate (.error e) = (⟨"failed", 0, none, none, some e⟩, none) ∧
    triggerUpdate (.error e) = (⟨"failed", 0, none, none, some e⟩, none) ∧
    timerTick (.error e) = (⟨"failed", 0, none, none, some e⟩, none) ∧
    performUpdate (.ok r) =
      (⟨"completed", r.tokensUpdated, some r.tokensProcessed, some r.errors, none⟩, none) :=
  ⟨rfl, rfl, rfl, rfl⟩

/-- Claim C6: whenever the stream disconnects (error or close both funnel
into the close handler), a live socket with attempt count below the ceiling of
20 gets a reconnect scheduled after `min(30000, 5000 * 2^attempts)` ms whose
firing increments the counter; at or above the ceiling nothing is scheduled;
the counter is reset to zero only by reaching Connected (any step that lowers
it is an open transition ending connected with counter 0); and once the
stream has given up, no event sequence ever changes the state again — in
particular no further reconnect is ever scheduled or attempted. -/
theorem wsReconnectPolicy :
    (∀ s : StreamState, s.alive = true → s.reconnectAttempts < maxReconnectAttempts →
      (wsStep s .closeEv).pendingReconnect =
          some (min 30000 (5000 * 2 ^ s.reconnectAttempts)) ∧
        (wsStep (wsStep s .closeEv) .timerEv).reconnectAttempts =
          s.reconnectAttempts + 1) ∧
    (∀ s : StreamState, s.alive = true → s.pendingReconnect = none →
      maxReconnectAttempts ≤ s.reconnectAttempts →
      (wsStep s .closeEv).pendingReconnect = none) ∧
    (∀ s : StreamState, s.alive = true → s.connected = false →
      (wsStep s .openEv).reconnectAttempts = 0 ∧ (wsStep s .openEv).connected = true) ∧
    (∀ (s : StreamState) (e : WsEvent),
      (wsStep s e).reconnectAttempts < s.reconnectAttempts →
      (wsStep s e).connected = true ∧ (wsStep s e).reconnectAttempts = 0) ∧
    (∀ s : StreamState, wsGaveUp s → ∀ evts, wsRun s evts = s) := by
  refine ⟨?_, ?_, ?_, ?_, fun s h evts => wsRun_gaveUp_fixed s h evts⟩
  · intro s halive hlt
    constructor
    · simp [wsStep, wsCloseHandler, halive, hlt]
    · simp [wsStep, wsCloseHandler, halive, hlt, reconnectTimerFire, initializeWebSocket]
  · intro s halive hpend hge
    simp [wsStep, wsCloseHandler, halive, hpend, Nat.not_lt.mpr hge]
  · intro s halive hnc
    have hg : s.alive = true ∧ s.connected = false := ⟨halive, hnc⟩
    constructor <;>
      · simp only [wsStep, if_pos hg, wsOpenHandler, subscribeToTokenTrades,
          initializeWebSocket]
        split_ifs <;> simp
  · intro s e hlt
    cases e with
    | openEv =>
      by_cases hg : s.alive = true ∧ s.connected = false
      · constructor <;>
          · revert hlt
            simp only [wsStep, hg, if_true, wsOpenHandler, subscribeToTokenTrades,
              initializeWebSocket]
            split_ifs <;> simp
      · rw [wsStep, if_neg hg] at hlt
        exact absurd hlt (lt_irrefl _)
    | closeEv =>
      exfalso
      revert hlt
      simp only [wsStep, wsCloseHandler]
      split_ifs <;> simp
    | timerEv =>
      exfalso
      revert hlt
      simp only [wsStep, reconnectTimerFire]
      cases s.pendingReconnect <;> simp [initializeWebSocket]
    | initEv =>
      exfalso
      revert hlt
      simp only [wsStep, initializeWebSocket]
      split_ifs <;> simp

/-- Witness for C6: a live disconnected socket with 3 prior attempts gets a
reconnect scheduled after `min(30000, 5000*2^3) = 30000` ms, the firing timer
raises the counter to 4, an open transition resets it to 0, and a gave-up
state (20 attempts, dead socket, nothing scheduled) is unchanged by any
further open/close/timer/init events. -/
theorem wsReconnectPolicy_witness :
    (wsStep ⟨true, true, false, 3, none, []⟩ .closeEv).pendingReconnect =
        some (min 30000 (5000 * 2 ^ 3)) ∧
    (wsStep (wsStep ⟨true, true, false, 3, none, []⟩ .closeEv) .timerEv).reconnectAttempts =
        3 + 1 ∧
    (wsStep ⟨true, true, false, 3, none, []⟩ .openEv).reconnectAttempts = 0 ∧
    wsRun ⟨true, false, false, 20, none, []⟩ [.openEv, .closeEv, .timerEv, .initEv] =
        ⟨true, false, false, 20, none, []⟩ :=
  ⟨(wsReconnectPolicy.1 ⟨true, true, false, 3, none, []⟩ rfl
      (by norm_num [maxReconnectAttempts])).1,
   (wsReconnectPolicy.1 ⟨true, true, false, 3, none, []⟩ rfl
      (by norm_num [maxReconnectAttempts])).2,
   (wsReconnectPolicy.2.2.1 ⟨true, true, false, 3, none, []⟩ rfl rfl).1,
   wsReconnectPolicy.2.2.2.2 ⟨true, false, false, 20, none, []⟩
     ⟨by norm_num [maxReconnectAttempts], rfl, rfl, rfl⟩ _⟩

/-- Counterexample to claim C7 as stated: subscribing with the EMPTY token
set while disconnected defers nothing — on the next Connected transition the
open handler skips the re-subscription (`lastSubscribedTokens.length > 0`
fails), so no subscription message containing the remembered (empty) set is
ever sent. -/
theorem wsResubscribe_empty_set_dropped :
    (subscribeToTokenTrades ⟨true, true, false, 0, none, ["x"]⟩ []).1.lastSubscribedTokens
        = [] ∧
    (subscribeToTokenTrades ⟨true, true, false, 0, none, ["x"]⟩ []).2 = [] ∧
    (wsOpenHandler (subscribeToTokenTrades ⟨true, true, false, 0, none, ["x"]⟩ []).1).2
        = [] := by
  refine ⟨rfl, rfl, rfl⟩

/-- Claim C7 amended: `subscribeToTokenTrades` replaces the remembered
subscription set; if the stream is connected it sends exactly one subscription
message containing the new set immediately; if not connected it sends nothing
now and triggers a connection attempt, and on the next Connected transition
the remembered set is re-sent — provided it is nonempty (an empty remembered
set is silently dropped by the open handler). -/
theorem subscribeToTokenTrades_spec (s : StreamState) (toks : List String) :
    ((subscribeToTokenTrades s toks).1.lastSubscribedTokens = toks) ∧
    (s.connected = true → s.conn = true →
      subscribeToTokenTrades s toks = ({ s with lastSubscribedTokens := toks }, [toks])) ∧
    (s.connected = false →
      (subscribeToTokenTrades s toks).2 = [] ∧
        (subscribeToTokenTrades s toks).1.conn = true) ∧
    (s.connected = false → s.conn = true → toks ≠ [] →
      (wsOpenHandler (subscribeToTokenTrades s toks).1).2 = [toks]) := by
  refine ⟨?_, ?_, ?_, ?_⟩
  · simp only [subscribeToTokenTrades, initializeWebSocket]
    split_ifs <;> simp
  · intro hc hw
    simp [subscribeToTokenTrades, hc, hw]
  · intro hnc
    constructor
    · simp [subscribeToTokenTrades, hnc]
    · simp only [subscribeToTokenTrades, initializeWebSocket, hnc]
      split_ifs <;> simp_all
  · intro hnc hw hne
    simp [subscribeToTokenTrades, wsOpenHandler, initializeWebSocket, hnc, hw, hne]

/-- Witness for the amended C7: subscribing to `["x"]` while connected sends
exactly one message `["x"]`; subscribing while disconnected sends nothing and
re-sends `["x"]` on the next open. -/
theorem subscribeToTokenTrades_spec_witness :
    subscribeToTokenTrades ⟨true, true, true, 0, none, []⟩ ["x"] =
        (⟨true, true, true, 0, none, ["x"]⟩, [["x"]]) ∧
    (subscribeToTokenTrades ⟨true, true, false, 0, none, []⟩ ["x"]).2 = [] ∧
    (wsOpenHandler (subscribeToTokenTrades ⟨true, true, false, 0, none, []⟩ ["x"]).1).2 =
        [["x"]] :=
  ⟨(subscribeToTokenTrades_spec ⟨true, true, true, 0, none, []⟩ ["x"]).2.1 rfl rfl,
   ((subscribeToTokenTrades_spec ⟨true, true, false, 0, none, []⟩ ["x"]).2.2.1 rfl).1,
   (subscribeToTokenTrades_spec ⟨true, true, false, 0, none, []⟩ ["x"]).2.2.2 rfl rfl
     (by simp)⟩

/-- Claim C3: an `updated: false, error` result does not imply the persisted
record is unchanged — on every call where the USD market cap is successfully
computed, the store update of `market_cap` and `last_market_cap_update`
completes, and only then does the post-write log dereference the `tokenPrice`
field absent from `calculateMarketCap`'s result, so the call returns
`updated: false` with a TypeError although the record was already written. -/
theorem updateTokenMarketCap_write_then_error
    (cache : TokenCache) (cell : PriceCell) (net : Option ℚ) (now : ℚ)
    (db : DbState) (tokenId : ℕ) (addr : String) (r : MarketCapResult)
    (h : (calculateMarketCap cell now net (selectedMarketCapSol cache addr now)).result =
      some r) :
    (updateTokenMarketCap cache cell net now db tokenId addr).outcome.updated = false ∧
    (updateTokenMarketCap cache cell net now db tokenId addr).outcome.error =
      some "Cannot read properties of undefined (reading toFixed)" ∧
    (updateTokenMarketCap cache cell net now db tokenId addr).db =
      dbUpdateMarketCap db tokenId r.marketCapUsd now := by
  refine ⟨?_, ?_, ?_⟩ <;>
    simp [updateTokenMarketCap, h, jsToFixed, marketCapResultTokenPrice]

/-- Witness for C3 at concrete inputs: live cached valuation 50 SOL, unit
price 150 USD; the row is written with 7500 USD yet the call reports
`updated: false` with the TypeError message. -/
theorem updateTokenMarketCap_write_then_error_witness :
    (updateTokenMarketCap [("tok", ⟨50, some "buy", some 1, some 2, 0⟩)] ⟨none, none⟩
        (some 150000000) 1000 [(1, ⟨"tok", none, none⟩)] 1 "tok").outcome.updated = false ∧
    (updateTokenMarketCap [("tok", ⟨50, some "buy", some 1, some 2, 0⟩)] ⟨none, none⟩
        (some 150000000) 1000 [(1, ⟨"tok", none, none⟩)] 1 "tok").outcome.error =
      some "Cannot read properties of undefined (reading toFixed)" ∧
    (updateTokenMarketCap [("tok", ⟨50, some "buy", some 1, some 2, 0⟩)] ⟨none, none⟩
        (some 150000000) 1000 [(1, ⟨"tok", none, none⟩)] 1 "tok").db =
      dbUpdateMarketCap [(1, ⟨"tok", none, none⟩)] 1 7500 1000 :=
  updateTokenMarketCap_write_then_error
    [("tok", ⟨50, some "buy", some 1, some 2, 0⟩)] ⟨none, none⟩ (some 150000000) 1000
    [(1, ⟨"tok", none, none⟩)] 1 "tok" ⟨7500, 150, 50, 1000⟩
    (by norm_num [calculateMarketCap, selectedMarketCapSol, getCachedTokenPrice,
      getTokenPrice, fetchTokenPrice])

/-- Claim C1, evaluated at the failing input (code bug): with a live cache
entry of 50 SOL for token "tok" and a unit price of 150 USD per SOL, the
persisted value is 50 * 150 = 7500 — the cached base-asset valuation times
the current unit price, as the claim demands — but the call returns
`updated: false` with a TypeError instead of `updated: true`, because the
success log dereferences the `tokenPrice` field that `calculateMarketCap`
does not return; the intended `updated: true` return (kept in the source and
expected by scripts/test-full-market-cap.js) is unreachable. -/
theorem updateTokenMarketCap_live_entry_eval :
    (updateTokenMarketCap [("tok", ⟨50, some "buy", some 1, some 2, 0⟩)] ⟨none, none⟩
        (some 150000000) 1000 [(1, ⟨"tok", none, none⟩)] 1 "tok").db =
      [(1, ⟨"tok", some (50 * 150), some 1000⟩)] ∧
    (updateTokenMarketCap [("tok", ⟨50, some "buy", some 1, some 2, 0⟩)] ⟨none, none⟩
        (some 150000000) 1000 [(1, ⟨"tok", none, none⟩)] 1 "tok").outcome.updated
      = false := by
  constructor <;>
    norm_num [updateTokenMarketCap, selectedMarketCapSol, getCachedTokenPrice,
      calculateMarketCap, getTokenPrice, fetchTokenPrice, dbUpdateMarketCap, jsToFixed,
      marketCapResultTokenPrice, cacheTimeout]

/-- Counterexample to claim C2 as stated: token "a" with no live cache entry
and no prior persisted value does not get an explicit zero written once — the
call writes the strictly positive mock valuation 588/5 SOL (times unit price
1 USD) and returns `updated: false`, and a second call with the same empty
inputs performs the write again (the timestamp advances from 0 to 7), so the
write is redundant rather than suppressed. -/
theorem updateTokenMarketCap_mock_nonzero_write :
    (updateTokenMarketCap [] ⟨none, none⟩ (some 1000000) 0
        [(1, ⟨"a", none, none⟩)] 1 "a").db =
      [(1, ⟨"a", some (588 / 5), some 0⟩)] ∧
    (588 / 5 : ℚ) ≠ 0 ∧
    (updateTokenMarketCap [] ⟨none, none⟩ (some 1000000) 0
        [(1, ⟨"a", none, none⟩)] 1 "a").outcome.updated = false ∧
    (updateTokenMarketCap [] ⟨none, none⟩ (some 1000000) 7
        [(1, ⟨"a", some (588 / 5), some 0⟩)] 1 "a").db =
      [(1, ⟨"a", some (588 / 5), some 7⟩)] := by
  have h97 : jsStringHash "a" = 97 := by decide
  have hmock : ∀ t : ℚ, (generateMockMarketCapData "a" t).marketCapSol = 588 / 5 := by
    intro t
    simp [generateMockMarketCapData, h97]
    norm_num
  refine ⟨?_, by norm_num, ?_, ?_⟩ <;>
    norm_num [updateTokenMarketCap, selectedMarketCapSol, getCachedTokenPrice,
      calculateMarketCap, getTokenPrice, fetchTokenPrice, dbUpdateMarketCap, jsToFixed,
      marketCapResultTokenPrice, cacheTimeout, hmock]

/-- Claim C2 amended: a persisted write-back occurs on every call whose USD
market-cap computation succeeds, regardless of source; a token with no live
cache entry is given the strictly positive deterministic mock valuation
(never an explicit zero), the call returns `updated: false` (tokenPrice
TypeError after the write), and a second call with the same empty inputs
performs the write again instead of suppressing a redundant write. -/
theorem updateTokenMarketCap_always_writes
    (cache : TokenCache) (cell cell2 : PriceCell) (net net2 : Option ℚ) (now now2 : ℚ)
    (db : DbState) (tokenId : ℕ) (addr : String) (pd pd2 : PriceData)
    (hmiss : getCachedTokenPrice cache addr = none)
    (hprice : (getTokenPrice cell false now net).result = some pd)
    (hprice2 : (getTokenPrice cell2 false now2 net2).result = some pd2) :
    (updateTokenMarketCap cache cell net now db tokenId addr).db =
      dbUpdateMarketCap db tokenId
        ((generateMockMarketCapData addr now).marketCapSol * pd.price) now ∧
    0 < (generateMockMarketCapData addr now).marketCapSol ∧
    (updateTokenMarketCap cache cell net now db tokenId addr).outcome.updated = false ∧
    (updateTokenMarketCap cache cell2 net2 now2
        (updateTokenMarketCap cache cell net now db tokenId addr).db tokenId addr).db =
      dbUpdateMarketCap (updateTokenMarketCap cache cell net now db tokenId addr).db
        tokenId ((generateMockMarketCapData addr now2).marketCapSol * pd2.price) now2 := by
  have hpos := generateMock_marketCapSol_pos addr now
  have hpos2 := generateMock_marketCapSol_pos addr now2
  have hsel : selectedMarketCapSol cache addr now =
      (generateMockMarketCapData addr now).marketCapSol := by
    simp [selectedMarketCapSol, hmiss]
  have hsel2 : selectedMarketCapSol cache addr now2 =
      (generateMockMarketCapData addr now2).marketCapSol := by
    simp [selectedMarketCapSol, hmiss]
  have hcalc : (calculateMarketCap cell now net (selectedMarketCapSol cache addr now)).result
      = some ⟨(generateMockMarketCapData addr now).marketCapSol * pd.price, pd.price,
        (generateMockMarketCapData addr now).marketCapSol, pd.timestamp⟩ := by
    rw [hsel]
    simp [calculateMarketCap, ne_of_gt hpos, hprice]
  have hcalc2 :
      (calculateMarketCap cell2 now2 net2 (selectedMarketCapSol cache addr now2)).result
      = some ⟨(generateMockMarketCapData addr now2).marketCapSol * pd2.price, pd2.price,
        (generateMockMarketCapData addr now2).marketCapSol, pd2.timestamp⟩ := by
    rw [hsel2]
    simp [calculateMarketCap, ne_of_gt hpos2, hprice2]
  refine ⟨?_, hpos, ?_, ?_⟩ <;>
    simp [updateTokenMarketCap, hcalc, hcalc2, jsToFixed, marketCapResultTokenPrice]

/-- Witness for the amended C2 at concrete inputs (token "a", empty cache,
unit price 1 USD): the first call writes the mock valuation, the second call
writes it again. -/
theorem updateTokenMarketCap_always_writes_witness :
    (updateTokenMarketCap [] ⟨none, none⟩ (some 1000000) 0
        [(1, ⟨"a", none, none⟩)] 1 "a").db =
      dbUpdateMarketCap [(1, ⟨"a", none, none⟩)] 1
        ((generateMockMarketCapData "a" 0).marketCapSol * 1) 0 ∧
    0 < (generateMockMarketCapData "a" 0).marketCapSol ∧
    (updateTokenMarketCap [] ⟨none, none⟩ (some 1000000) 0
        [(1, ⟨"a", none, none⟩)] 1 "a").outcome.updated = false ∧
    (updateTokenMarketCap [] ⟨none, none⟩ (some 1000000) 7
        (updateTokenMarketCap [] ⟨none, none⟩ (some 1000000) 0
          [(1, ⟨"a", none, none⟩)] 1 "a").db 1 "a").db =
      dbUpdateMarketCap
        (updateTokenMarketCap [] ⟨none, none⟩ (some 1000000) 0
          [(1, ⟨"a", none, none⟩)] 1 "a").db 1
        ((generateMockMarketCapData "a" 7).marketCapSol * 1) 7 :=
  updateTokenMarketCap_always_writes [] ⟨none, none⟩ ⟨none, none⟩ (some 1000000)
    (some 1000000) 0 7 [(1, ⟨"a", none, none⟩)] 1 "a" ⟨1, 0⟩ ⟨1, 7⟩ rfl
    (by norm_num [getTokenPrice, fetchTokenPrice])
    (by norm_num [getTokenPrice, fetchTokenPrice])

/-- Claim C10: the mock market-cap generator is a pure deterministic function
of the token address (the SOL valuation is independent of the call time, and
the embedding is a pure function of the address: the source uses only the
address hash, no randomness or ambient state), its value always lies in
[1, 140] and is strictly positive; consequently a token with no cached live
entry is never assigned a zero base-asset valuation by
`updateTokenMarketCap`. -/
theorem generateMockMarketCapData_deterministic_positive
    (addr : String) (now now2 : ℚ) (cache : TokenCache)
    (hmiss : getCachedTokenPrice cache addr = none) :
    (generateMockMarketCapData addr now).marketCapSol =
      (generateMockMarketCapData addr now2).marketCapSol ∧
    1 ≤ (generateMockMarketCapData addr now).marketCapSol ∧
    (generateMockMarketCapData addr now).marketCapSol ≤ 140 ∧
    selectedMarketCapSol cache addr now = (generateMockMarketCapData addr now).marketCapSol ∧
    0 < selectedMarketCapSol cache addr now := by
  refine ⟨rfl, (generateMock_marketCapSol_bounds addr now).1,
    (generateMock_marketCapSol_bounds addr now).2, ?_, ?_⟩
  · simp [selectedMarketCapSol, hmiss]
  · simp only [selectedMarketCapSol, hmiss]
    exact generateMock_marketCapSol_pos addr now

/-- Witness for C10 at token address "a" with an empty cache. -/
theorem generateMockMarketCapData_deterministic_positive_witness :
    (generateMockMarketCapData "a" 0).marketCapSol =
      (generateMockMarketCapData "a" 1).marketCapSol ∧
    1 ≤ (generateMockMarketCapData "a" 0).marketCapSol ∧
    (generateMockMarketCapData "a" 0).marketCapSol ≤ 140 ∧
    selectedMarketCapSol [] "a" 0 = (generateMockMarketCapData "a" 0).marketCapSol ∧
    0 < selectedMarketCapSol [] "a" 0 :=
  generateMockMarketCapData_deterministic_positive "a" 0 1 [] rfl

end Blazr
